import Mathlib

/-!
Shallow embedding of `src/pdf_full_loader.py`, a Streamlit RAG application:
upload a PDF, chunk it, embed chunks into a local Qdrant collection, and
answer questions via retrieval-augmented generation against OpenAI models.

External collaborators (Streamlit widgets, the tiktoken text splitter, the
OpenAI embedding/chat APIs, the Qdrant engine) are modelled as parameters
(oracles) where their behaviour matters, and as explicit state where the
program manipulates them (the Qdrant collection list, the Streamlit
session state).  Python exceptions from external calls are modelled with
an explicit outcome type; Python truthiness of the values the program
branches on (None, empty string, empty list, non-empty dict) is modelled
faithfully at each branch.
-/

namespace PdfFullLoader

/-- `QDRANT_PATH = "./local_qdrant"` (module-level constant). -/
def QDRANT_PATH : String := "./local_qdrant"

/-- `COLLECTION_NAME = "my_collection_2"` (module-level constant). -/
def COLLECTION_NAME : String := "my_collection_2"

/-- The three labels offered by the radio control in `select_model`:
`st.sidebar.radio("Modelo:", ("GPT-3.5", "GPT-3.5-16k", "GPT-4"))`. -/
def modelOptions : List String := ["GPT-3.5", "GPT-3.5-16k", "GPT-4"]

/-- The `if`/`elif`/`else` mapping in `select_model` from the radio label to
the `st.session_state.model_name` it assigns.  The source compares the label
against `"GPT-3.5"` twice (lines 38 and 40): the `elif` repeats the `if`
condition, so it is transcribed exactly that way here. -/
def select_model_name (model : String) : String :=
  if model == "GPT-3.5" then "gpt-3.5-turbo"
  else if model == "GPT-3.5" then "gpt-3.5-turbo-16k"
  else "gpt-4"

end PdfFullLoader

namespace PdfFullLoader

/-- The claim as written: choosing "GPT-3.5-16k" yields the same underlying
model identifier as choosing "GPT-3.5". -/
def claimC1 : Prop :=
  select_model_name "GPT-3.5-16k" = select_model_name "GPT-3.5"

/-- C1 counterexample: the claim is false on the code.  Selecting
"GPT-3.5-16k" fails both (identical) equality checks and falls to the
`else` branch, yielding "gpt-4", while "GPT-3.5" yields "gpt-3.5-turbo". -/
theorem C1_counterexample :
    ¬ claimC1 ∧
      select_model_name "GPT-3.5-16k" = "gpt-4" ∧
      select_model_name "GPT-3.5" = "gpt-3.5-turbo" := by
  refine ⟨?_, rfl, rfl⟩
  intro h
  simp [claimC1, select_model_name] at h

/-- C1 (amended): choosing the "GPT-3.5-16k" radio option yields the same
underlying model identifier as choosing "GPT-4" (namely "gpt-4"): the second
labeled option behaves identically to the third, and the second mapping
branch (the one assigning "gpt-3.5-turbo-16k") is never reached from it. -/
theorem C1_amended :
    select_model_name "GPT-3.5-16k" = select_model_name "GPT-4" ∧
      select_model_name "GPT-3.5-16k" = "gpt-4" ∧
      select_model_name "GPT-3.5-16k" ≠ "gpt-3.5-turbo-16k" := by
  refine ⟨rfl, rfl, ?_⟩
  intro h
  simp [select_model_name] at h

/-- `qdrant_client.models.Distance`: the similarity metric of a collection. -/
inductive Distance where
  | COSINE
  | EUCLID
  | DOT
deriving DecidableEq, Repr

/-- `qdrant_client.models.VectorParams(size=..., distance=...)`. -/
structure VectorParams where
  size : ℕ
  distance : Distance
deriving DecidableEq, Repr

/-- One named Qdrant collection: its creation-time vector parameters and its
stored points.  Each point is the embedding vector paired with the source
chunk text (what `Qdrant.add_texts` stores). -/
structure Collection where
  name : String
  params : VectorParams
  points : List (List ℚ × String)
deriving DecidableEq, Repr

/-- The state of the embedded Qdrant database at `QDRANT_PATH`: the list of
its collections. -/
structure QdrantDB where
  collections : List Collection
deriving DecidableEq, Repr

/-- `client.get_collections().collections` followed by the list comprehension
`[collection.name for collection in collections]` in `load_qdrant`. -/
def collection_names (db : QdrantDB) : List String :=
  db.collections.map (fun c => c.name)

/-- `client.create_collection(collection_name=..., vectors_config=...)`:
adds a new, empty collection with the given parameters. -/
def create_collection (db : QdrantDB) (nm : String) (cfg : VectorParams) :
    QdrantDB :=
  { collections := db.collections ++ [{ name := nm, params := cfg, points := [] }] }

/-- `load_qdrant` (state part): if no collection named `COLLECTION_NAME`
exists it is created with `VectorParams(size=1536, distance=Distance.COSINE)`;
otherwise the database is untouched.  The returned `Qdrant` handle wraps the
client, the collection name and an `OpenAIEmbeddings` instance; the handle
carries no state of its own, so the embedding returns the database state. -/
def load_qdrant (db : QdrantDB) : QdrantDB :=
  if COLLECTION_NAME ∈ collection_names db then db
  else create_collection db COLLECTION_NAME
    { size := 1536, distance := Distance.COSINE }

/-- `qdrant.add_texts(texts)`: embeds every text (via the handle's
`OpenAIEmbeddings`, modelled by the oracle `embed`) and appends the resulting
points to the named collection.  No deduplication is performed. -/
def add_texts (embed : String → List ℚ) (db : QdrantDB) (nm : String)
    (texts : List String) : QdrantDB :=
  { collections := db.collections.map (fun c =>
      if c.name = nm then
        { c with points := c.points ++ texts.map (fun t => (embed t, t)) }
      else c) }

/-- `build_vector_store(pdf_text)`: `qdrant = load_qdrant()` then
`qdrant.add_texts(pdf_text)`. -/
def build_vector_store (embed : String → List ℚ) (db : QdrantDB)
    (pdf_text : List String) : QdrantDB :=
  add_texts embed (load_qdrant db) COLLECTION_NAME pdf_text

/-- `langchain.chat_models.ChatOpenAI(temperature=..., model_name=...)`:
the configuration of the hosted chat model handle. -/
structure ChatOpenAI where
  temperature : ℚ
  model_name : String
deriving DecidableEq, Repr

/-- The `st.session_state` fields the program uses: the session cost
accumulator, the selected model name, and the derived (unused) token
budget. -/
structure SessionState where
  costs : List ℚ
  model_name : String
  max_token : ℤ
deriving DecidableEq, Repr

/-- `init_page`: sets the page config and sidebar title (pure UI effects)
and resets the accumulator: `st.session_state.costs = []`. -/
def init_page (s : SessionState) : SessionState :=
  { s with costs := [] }

/-- `select_model` in full: maps the radio label through the duplicated
`if`/`elif` (see `select_model_name`), stores the name and the derived
`max_token` (`OpenAI.modelname_to_contextsize` is an external lookup,
modelled by the oracle `contextsize`) into the session, and returns
`ChatOpenAI(temperature=0, model_name=...)`. -/
def select_model (contextsize : String → ℤ) (model : String)
    (s : SessionState) : SessionState × ChatOpenAI :=
  let nm := select_model_name model
  ({ s with model_name := nm, max_token := contextsize nm - 300 },
   { temperature := 0, model_name := nm })

/-- Configuration passed to
`RecursiveCharacterTextSplitter.from_tiktoken_encoder` in `get_pdf_text`. -/
structure SplitterConfig where
  model_name : String
  chunk_size : ℕ
  chunk_overlap : ℕ
deriving DecidableEq, Repr

/-- The uploaded PDF as the program sees it through `PyPDF2.PdfReader`:
the extracted text of each page, in order. -/
structure UploadedPdf where
  pages : List String
deriving DecidableEq, Repr

/-- `get_pdf_text`: when the file uploader holds a file, joins the extracted
page texts with a double line break and returns `split_text` of the splitter
built with model "text-embedding-ada-002", `chunk_size=500` and
`chunk_overlap=0` (the splitter itself is external, modelled by the oracle
`split`); otherwise returns `None`. -/
def get_pdf_text (split : SplitterConfig → String → List String)
    (uploaded : Option UploadedPdf) : Option (List String) :=
  match uploaded with
  | some pdf =>
      some (split
        { model_name := "text-embedding-ada-002",
          chunk_size := 500, chunk_overlap := 0 }
        (String.intercalate "\n\n" pdf.pages))
  | none => none

/-- `page_pdf_upload_and_build_vector_db`: fetches the chunks and runs
`build_vector_store` only when `pdf_text` is truthy — in Python both `None`
and the empty list are falsy, so a missing upload or an empty chunk list
skips ingestion silently (no error path exists on this page). -/
def page_pdf_upload_and_build_vector_db
    (split : SplitterConfig → String → List String)
    (embed : String → List ℚ) (db : QdrantDB)
    (uploaded : Option UploadedPdf) : QdrantDB :=
  match get_pdf_text split uploaded with
  | some pdf_text =>
      if pdf_text.isEmpty then db else build_vector_store embed db pdf_text
  | none => db

/-- The retriever configuration produced by `qdrant.as_retriever(...)` in
`build_qa_model`. -/
structure RetrieverConfig where
  search_type : String
  k : ℕ
deriving DecidableEq, Repr

/-- The chain configuration produced by `RetrievalQA.from_chain_type` in
`build_qa_model`. -/
structure RetrievalQA where
  llm : ChatOpenAI
  chain_type : String
  retriever : RetrieverConfig
  return_source_documents : Bool
  verbose : Bool
deriving DecidableEq, Repr

/-- `build_qa_model(llm)`: runs `load_qdrant` (which may create the
collection, a database effect), builds a retriever with
`search_type="similarity"` and `search_kwargs={"k": 10}`, and returns the
`RetrievalQA` chain configured with `chain_type="stuff"` and
`return_source_documents=True`. -/
def build_qa_model (db : QdrantDB) (llm : ChatOpenAI) :
    QdrantDB × RetrievalQA :=
  (load_qdrant db,
   { llm := llm, chain_type := "stuff",
     retriever := { search_type := "similarity", k := 10 },
     return_source_documents := true, verbose := true })

/-- The dict returned by calling the `RetrievalQA` chain: keys `query`,
`result` and (because `return_source_documents=True`) `source_documents`. -/
structure Answer where
  query : String
  result : String
  source_documents : List String
deriving DecidableEq, Repr

/-- A Python exception escaping an external call (network, auth, rate
limit); the program installs no handler for it. -/
structure PyException where
  message : String
deriving DecidableEq, Repr

/-- Oracle for the hosted-model invocation `qa(query)` performed inside
`get_openai_callback`: either the answer dict together with the callback's
`total_cost` for that call, or a raised exception. -/
abbrev QaCall := RetrievalQA → String → Except PyException (Answer × ℚ)

/-- `ask(qa, query)`: runs `qa(query)` inside `get_openai_callback` and
returns the answer together with `cb.total_cost`; an exception from the
call propagates unhandled. -/
def ask (qaCall : QaCall) (qa : RetrievalQA) (query : String) :
    Except PyException (Answer × ℚ) :=
  qaCall qa query

/-- The observable outcome of one run of `page_ask_my_pdf`: the page either
completes, with the final session state, database state and the rendered
answer (`none` when nothing was displayed), or an external call raised and
the exception propagates with the session and database as they were at the
raise point. -/
inductive PageOutcome where
  | completed (state : SessionState) (db : QdrantDB) (displayed : Option Answer)
  | raised (e : PyException) (state : SessionState) (db : QdrantDB)
deriving DecidableEq, Repr

/-- `page_ask_my_pdf`: `select_model` runs first (mutating session fields);
an empty query string is falsy (`if not query:`), so nothing is called and
`answer = None`; otherwise the chain is built (`build_qa_model` always
returns an object, so `if qa:` is always truthy and its else-branch never
runs), `ask` is invoked, the cost is appended to `st.session_state.costs`,
and the answer dict — a non-empty dict, hence truthy — is rendered. -/
def page_ask_my_pdf (contextsize : String → ℤ) (qaCall : QaCall)
    (model query : String) (s : SessionState) (db : QdrantDB) :
    PageOutcome :=
  let p := select_model contextsize model s
  if query = "" then PageOutcome.completed p.1 db none
  else
    let q := build_qa_model db p.2
    match ask qaCall q.2 query with
    | Except.error e => PageOutcome.raised e p.1 q.1
    | Except.ok (answer, cost) =>
        PageOutcome.completed
          { p.1 with costs := p.1.costs ++ [cost] } q.1 (some answer)

/-- One Streamlit rerun of the script with the sidebar on "Consultar PDF"
and the given question in the text input: a rerun executes the whole script,
so `main()` first calls `init_page()` — which unconditionally resets
`st.session_state.costs = []` (line 33) — and then runs `page_ask_my_pdf`. -/
def main_ask_rerun (contextsize : String → ℤ) (qaCall : QaCall)
    (model query : String) (s : SessionState) (db : QdrantDB) :
    PageOutcome :=
  page_ask_my_pdf contextsize qaCall model query (init_page s) db

/-- A session of successive reruns on the ask page, one per submitted query.
Streamlit reruns the script top to bottom on every interaction, so each
query runs through `main` — including the unconditional `init_page` reset —
before the page body executes; the session stops at the first raised
exception. -/
def run_reruns (contextsize : String → ℤ) (qaCall : QaCall) (model : String)
    (queries : List String) (s : SessionState) (db : QdrantDB) :
    PageOutcome :=
  match queries with
  | [] => PageOutcome.completed s db none
  | q :: rest =>
    match main_ask_rerun contextsize qaCall model q s db with
    | PageOutcome.completed s1 db1 _ =>
        run_reruns contextsize qaCall model rest s1 db1
    | PageOutcome.raised e s1 db1 => PageOutcome.raised e s1 db1

/-- The session cost list after an outcome (`st.session_state.costs` is a
global that survives a propagated exception). -/
def outcome_costs : PageOutcome → List ℚ
  | PageOutcome.completed s _ _ => s.costs
  | PageOutcome.raised _ s _ => s.costs

/-- Rounding a rational to 5 decimal places, modelling the `:.5f` format
`main` applies to `sum(costs)` and to each listed cost. -/
def round5 (q : ℚ) : ℚ := (round (q * 100000) : ℤ) / 100000

/-- The sidebar total of `main`: `sum(costs)` displayed to 5 decimal
places. -/
def display_total (costs : List ℚ) : ℚ := round5 costs.sum

/-- Number of collections named `nm` in the database. -/
def count_named (db : QdrantDB) (nm : String) : ℕ :=
  (db.collections.filter (fun c => c.name = nm)).length

/-- Total number of stored entries across the collections named `nm`
(Qdrant keeps collection names unique, so at most one contributes). -/
def entry_count (db : QdrantDB) (nm : String) : ℕ :=
  ((db.collections.filter (fun c => c.name = nm)).map
    (fun c => c.points.length)).sum

end PdfFullLoader

namespace PdfFullLoader

theorem mem_collection_names_iff (db : QdrantDB) (nm : String) :
    nm ∈ collection_names db ↔ 0 < count_named db nm := by
  simp [collection_names, count_named, List.length_pos, List.filter_eq_nil_iff]

theorem count_named_create (db : QdrantDB) (nm : String) (cfg : VectorParams) :
    count_named (create_collection db nm cfg) nm = count_named db nm + 1 := by
  simp [count_named, create_collection, List.filter_append]

theorem count_named_load_qdrant (db : QdrantDB) :
    count_named (load_qdrant db) COLLECTION_NAME =
      max (count_named db COLLECTION_NAME) 1 := by
  unfold load_qdrant
  by_cases h : COLLECTION_NAME ∈ collection_names db
  · rw [if_pos h]
    have h1 := (mem_collection_names_iff db COLLECTION_NAME).mp h
    omega
  · rw [if_neg h]
    have h0 : count_named db COLLECTION_NAME = 0 := by
      by_contra hne
      exact h ((mem_collection_names_iff db COLLECTION_NAME).mpr
        (Nat.pos_of_ne_zero hne))
    rw [count_named_create, h0]
    decide

theorem load_qdrant_mem (db : QdrantDB) :
    COLLECTION_NAME ∈ collection_names (load_qdrant db) := by
  rw [mem_collection_names_iff, count_named_load_qdrant]
  omega

/-- C5: `load_qdrant` is idempotent: it checks existence by name, creates the
collection with size 1536 and cosine distance only when absent, leaves the
database untouched (no schema validation) when present, and running it twice
equals running it once; afterwards exactly one collection bears the name,
provided the database satisfies the Qdrant invariant that collection names
are unique (at most one collection per name). -/
theorem C5_load_qdrant_idempotent (db : QdrantDB)
    (h : count_named db COLLECTION_NAME ≤ 1) :
    load_qdrant (load_qdrant db) = load_qdrant db ∧
      count_named (load_qdrant db) COLLECTION_NAME = 1 ∧
      (COLLECTION_NAME ∈ collection_names db → load_qdrant db = db) ∧
      (COLLECTION_NAME ∉ collection_names db →
        load_qdrant db = create_collection db COLLECTION_NAME
          { size := 1536, distance := Distance.COSINE }) := by
  refine ⟨?_, ?_, ?_, ?_⟩
  · show load_qdrant (load_qdrant db) = load_qdrant db
    unfold load_qdrant
    rw [if_pos (by simpa [load_qdrant] using load_qdrant_mem db)]
  · rw [count_named_load_qdrant]; omega
  · intro hmem
    unfold load_qdrant
    rw [if_pos hmem]
  · intro hmem
    unfold load_qdrant
    rw [if_neg hmem]

/-- C5 witness: starting from the empty database (no collection exists), the
hypothesis holds and `load_qdrant` creates exactly the 1536-dimensional
cosine collection. -/
theorem C5_witness :
    count_named { collections := [] } COLLECTION_NAME ≤ 1 ∧
      (load_qdrant (load_qdrant { collections := [] }) =
          load_qdrant { collections := [] } ∧
        count_named (load_qdrant { collections := [] }) COLLECTION_NAME = 1 ∧
        (COLLECTION_NAME ∈ collection_names { collections := [] } →
          load_qdrant { collections := [] } = { collections := [] }) ∧
        (COLLECTION_NAME ∉ collection_names { collections := [] } →
          load_qdrant { collections := [] } =
            create_collection { collections := [] } COLLECTION_NAME
              { size := 1536, distance := Distance.COSINE })) :=
  ⟨by decide, C5_load_qdrant_idempotent { collections := [] } (by decide)⟩

theorem entry_count_create (db : QdrantDB) (nm : String) (cfg : VectorParams) :
    entry_count (create_collection db nm cfg) nm = entry_count db nm := by
  simp [entry_count, create_collection, List.filter_append]

theorem entry_count_load_qdrant (db : QdrantDB) :
    entry_count (load_qdrant db) COLLECTION_NAME =
      entry_count db COLLECTION_NAME := by
  unfold load_qdrant
  by_cases h : COLLECTION_NAME ∈ collection_names db
  · rw [if_pos h]
  · rw [if_neg h, entry_count_create]

theorem entry_count_add_texts (embed : String → List ℚ) (db : QdrantDB)
    (nm : String) (texts : List String) :
    entry_count (add_texts embed db nm texts) nm =
      entry_count db nm + count_named db nm * texts.length := by
  unfold entry_count add_texts count_named
  induction db.collections with
  | nil => simp
  | cons c l ih =>
    by_cases hc : c.name = nm
    · simp [List.filter_cons, hc, ih]
      ring
    · simp [List.filter_cons, hc, ih]

theorem collection_names_add_texts (embed : String → List ℚ) (db : QdrantDB)
    (nm : String) (texts : List String) :
    collection_names (add_texts embed db nm texts) = collection_names db := by
  unfold collection_names add_texts
  simp only [List.map_map]
  apply List.map_congr_left
  intro c _
  by_cases hc : c.name = nm <;> simp [hc]

theorem count_named_eq_names (db : QdrantDB) (nm : String) :
    count_named db nm =
      ((collection_names db).filter (fun x => x = nm)).length := by
  unfold count_named collection_names
  rw [List.filter_map, List.length_map]
  rfl

theorem count_named_add_texts (embed : String → List ℚ) (db : QdrantDB)
    (nm nm' : String) (texts : List String) :
    count_named (add_texts embed db nm texts) nm' = count_named db nm' := by
  rw [count_named_eq_names, count_named_eq_names, collection_names_add_texts]

theorem count_named_build_vector_store (embed : String → List ℚ)
    (db : QdrantDB) (texts : List String) :
    count_named (build_vector_store embed db texts) COLLECTION_NAME =
      max (count_named db COLLECTION_NAME) 1 := by
  unfold build_vector_store
  rw [count_named_add_texts, count_named_load_qdrant]

theorem entry_count_build_vector_store (embed : String → List ℚ)
    (db : QdrantDB) (texts : List String)
    (h : count_named db COLLECTION_NAME ≤ 1) :
    entry_count (build_vector_store embed db texts) COLLECTION_NAME =
      entry_count db COLLECTION_NAME + texts.length := by
  unfold build_vector_store
  rw [entry_count_add_texts, entry_count_load_qdrant, count_named_load_qdrant]
  have : max (count_named db COLLECTION_NAME) 1 = 1 := by omega
  rw [this, one_mul]

/-- C6: ingesting a list of N chunks through `build_vector_store` appends all
N entries to the collection, increasing its entry count by exactly N, and
there is no deduplication: ingesting the same chunk list a second time (the
re-uploaded PDF) adds all N entries again, for a total increase of 2·N.  The
hypothesis is the Qdrant invariant that collection names are unique. -/
theorem C6_ingest_adds_exactly_N (embed : String → List ℚ) (db : QdrantDB)
    (texts : List String) (h : count_named db COLLECTION_NAME ≤ 1) :
    entry_count (build_vector_store embed db texts) COLLECTION_NAME =
      entry_count db COLLECTION_NAME + texts.length ∧
    entry_count (build_vector_store embed (build_vector_store embed db texts)
        texts) COLLECTION_NAME =
      entry_count db COLLECTION_NAME + 2 * texts.length := by
  have h1 := entry_count_build_vector_store embed db texts h
  have h2 : count_named (build_vector_store embed db texts) COLLECTION_NAME ≤ 1 := by
    rw [count_named_build_vector_store]; omega
  have h3 := entry_count_build_vector_store embed
    (build_vector_store embed db texts) texts h2
  refine ⟨h1, ?_⟩
  rw [h3, h1]
  ring

/-- C6 witness: on the empty database, ingesting two concrete chunks yields
entry count 2, and ingesting them again yields entry count 4. -/
theorem C6_witness :
    count_named { collections := [] } COLLECTION_NAME ≤ 1 ∧
      (entry_count (build_vector_store (fun _ => [])
            { collections := [] } ["alpha", "beta"]) COLLECTION_NAME =
          entry_count { collections := [] } COLLECTION_NAME + 2 ∧
        entry_count (build_vector_store (fun _ => [])
            (build_vector_store (fun _ => [])
              { collections := [] } ["alpha", "beta"])
            ["alpha", "beta"]) COLLECTION_NAME =
          entry_count { collections := [] } COLLECTION_NAME + 2 * 2) :=
  ⟨by decide,
    C6_ingest_adds_exactly_N (fun _ => []) { collections := [] }
      ["alpha", "beta"] (by decide)⟩

/-- C2: for every radio selection (indeed for every string), the assigned
model name is either "gpt-3.5-turbo" or "gpt-4", and the branch assigning
"gpt-3.5-turbo-16k" never executes, because the `elif` duplicates the `if`
condition; the other two branches are both reached (so exactly one of the
three is unreachable). -/
theorem C2_unreachable_branch (m : String) :
    ((select_model_name m = "gpt-3.5-turbo" ∨ select_model_name m = "gpt-4") ∧
      select_model_name m ≠ "gpt-3.5-turbo-16k") ∧
    select_model_name "GPT-3.5" = "gpt-3.5-turbo" ∧
    select_model_name "GPT-4" = "gpt-4" := by
  refine ⟨?_, rfl, rfl⟩
  unfold select_model_name
  by_cases h : (m == "GPT-3.5") = true
  · rw [if_pos h]
    exact ⟨Or.inl rfl, by simp⟩
  · rw [if_neg h, if_neg h]
    exact ⟨Or.inr rfl, by simp⟩

theorem select_model_costs (contextsize : String → ℤ) (model : String)
    (s : SessionState) :
    ((select_model contextsize model s).1).costs = s.costs := rfl

/-- C4: on an empty question the page completes without consulting the
model-call oracle at all (the outcome is literally independent of it): no
answer is displayed, the database is untouched, no cost is appended (the
session keeps its cost list; only the `select_model` fields change), and no
exception is raised. -/
theorem C4_empty_query (contextsize : String → ℤ) (qaCall qaCall' : QaCall)
    (model : String) (s : SessionState) (db : QdrantDB) :
    page_ask_my_pdf contextsize qaCall model "" s db =
      PageOutcome.completed (select_model contextsize model s).1 db none ∧
    ((select_model contextsize model s).1).costs = s.costs ∧
    page_ask_my_pdf contextsize qaCall model "" s db =
      page_ask_my_pdf contextsize qaCall' model "" s db :=
  ⟨rfl, rfl, rfl⟩

/-- C7: `get_pdf_text` on an uploaded PDF joins the extracted texts of all
pages with a double line break, hands the result to the splitter configured
with model "text-embedding-ada-002", chunk size 500 and chunk overlap 0,
and returns the splitter's chunk sequence unchanged; with no upload it
returns `None`. -/
theorem C7_get_pdf_text (split : SplitterConfig → String → List String)
    (pdf : UploadedPdf) :
    get_pdf_text split (some pdf) =
      some (split
        { model_name := "text-embedding-ada-002",
          chunk_size := 500, chunk_overlap := 0 }
        (String.intercalate "\n\n" pdf.pages)) ∧
    get_pdf_text split none = none :=
  ⟨rfl, rfl⟩

/-- C8: the query flow configures the retriever for similarity search with
`k = 10`, wraps the chain around exactly the llm it was given (the
`ChatOpenAI` built by `select_model` with temperature 0 and the selected
model name) with source documents returned, and `ask` yields precisely the
pair (answer, total cost) of the underlying call. -/
theorem C8_query_flow (contextsize : String → ℤ) (model : String)
    (s : SessionState) (db : QdrantDB) (llm : ChatOpenAI) (qaCall : QaCall)
    (qa : RetrievalQA) (query : String) :
    ((build_qa_model db llm).2).retriever.search_type = "similarity" ∧
    ((build_qa_model db llm).2).retriever.k = 10 ∧
    ((build_qa_model db llm).2).llm = llm ∧
    ((build_qa_model db llm).2).return_source_documents = true ∧
    ((select_model contextsize model s).2).temperature = 0 ∧
    ((select_model contextsize model s).2).model_name =
      select_model_name model ∧
    ask qaCall qa query = qaCall qa query :=
  ⟨rfl, rfl, rfl, rfl, rfl, rfl, rfl⟩

/-- C9: with no PDF uploaded `get_pdf_text` returns `None`, and the upload
page leaves the vector database unchanged (ingestion skipped; the page has
no error path, so nothing is surfaced); likewise when the chunker returns
the empty (falsy) list. -/
theorem C9_missing_upload (split : SplitterConfig → String → List String)
    (embed : String → List ℚ) (db : QdrantDB) :
    get_pdf_text split none = none ∧
    page_pdf_upload_and_build_vector_db split embed db none = db ∧
    (∀ uploaded : Option UploadedPdf, get_pdf_text split uploaded = some [] →
      page_pdf_upload_and_build_vector_db split embed db uploaded = db) := by
  refine ⟨rfl, rfl, ?_⟩
  intro uploaded hsplit
  unfold page_pdf_upload_and_build_vector_db
  rw [hsplit]
  rfl

/-- C9 witness: with a splitter that returns no chunks, both a missing
upload and an uploaded one-page PDF leave the concrete empty database
unchanged. -/
theorem C9_witness :
    get_pdf_text (fun _ _ => []) none = none ∧
    page_pdf_upload_and_build_vector_db (fun _ _ => []) (fun _ => [])
      { collections := [] } none = { collections := [] } ∧
    page_pdf_upload_and_build_vector_db (fun _ _ => []) (fun _ => [])
      { collections := [] } (some { pages := ["hello"] }) =
      { collections := [] } := by
  obtain ⟨h1, h2, h3⟩ :=
    C9_missing_upload (fun _ _ => []) (fun _ => []) { collections := [] }
  exact ⟨h1, h2, h3 (some { pages := ["hello"] }) rfl⟩

/-- C10: for a non-empty query, when the model call inside `ask` raises, the
exception propagates out of the page (`page_ask_my_pdf` reports `raised`)
with the session cost accumulator exactly as it was before the query: the
append runs only after `ask` returns normally. -/
theorem C10_failed_call_appends_nothing (contextsize : String → ℤ)
    (qaCall : QaCall) (model query : String) (s : SessionState)
    (db : QdrantDB) (e : PyException)
    (hq : query ≠ "")
    (herr : qaCall ((build_qa_model db
        (select_model contextsize model s).2).2) query = Except.error e) :
    page_ask_my_pdf contextsize qaCall model query s db =
      PageOutcome.raised e (select_model contextsize model s).1
        (build_qa_model db (select_model contextsize model s).2).1 ∧
    ((select_model contextsize model s).1).costs = s.costs := by
  refine ⟨?_, rfl⟩
  unfold page_ask_my_pdf ask
  rw [if_neg hq]
  simp only [herr]

theorem round5_close (q : ℚ) : |round5 q - q| ≤ 1 / 200000 := by
  unfold round5
  have h : |q * 100000 - ((round (q * 100000) : ℤ) : ℚ)| ≤ 1 / 2 :=
    abs_sub_round (q * 100000)
  have heq : ((round (q * 100000) : ℤ) : ℚ) / 100000 - q
      = -((q * 100000 - ((round (q * 100000) : ℤ) : ℚ)) / 100000) := by ring
  rw [heq, abs_neg, abs_div]
  have h100 : |(100000 : ℚ)| = 100000 := by norm_num
  rw [h100, div_le_iff₀ (by norm_num : (0 : ℚ) < 100000)]
  have hend : (1 : ℚ) / 200000 * 100000 = 1 / 2 := by norm_num
  rw [hend]
  exact h

theorem page_ask_ok (contextsize : String → ℤ) (qaCall : QaCall)
    (model query : String) (s : SessionState) (db : QdrantDB) (ans : Answer)
    (cost : ℚ) (hq : query ≠ "")
    (hok : qaCall ((build_qa_model db
        (select_model contextsize model s).2).2) query =
      Except.ok (ans, cost)) :
    page_ask_my_pdf contextsize qaCall model query s db =
      PageOutcome.completed
        { (select_model contextsize model s).1 with
            costs := ((select_model contextsize model s).1).costs ++ [cost] }
        (build_qa_model db (select_model contextsize model s).2).1
        (some ans) := by
  unfold page_ask_my_pdf ask
  rw [if_neg hq]
  simp only [hok]

theorem run_reruns_all_ok (contextsize : String → ℤ) (qaCall : QaCall)
    (ansFn : String → Answer) (costFn : String → ℚ)
    (hcall : ∀ qa q, qaCall qa q = Except.ok (ansFn q, costFn q))
    (model : String) :
    ∀ (queries : List String), (∀ q ∈ queries, q ≠ "") →
    ∀ (s : SessionState) (db : QdrantDB),
    ∃ s1 db1 disp,
      run_reruns contextsize qaCall model queries s db =
        PageOutcome.completed s1 db1 disp ∧
      s1.costs = queries.foldl (fun _ q => [costFn q]) s.costs := by
  intro queries
  induction queries with
  | nil => exact fun _ s db => ⟨s, db, none, rfl, rfl⟩
  | cons q rest ih =>
    intro hne s db
    have hq : q ≠ "" := hne q (List.mem_cons_self q rest)
    have hrest : ∀ r ∈ rest, r ≠ "" :=
      fun r hr => hne r (List.mem_cons_of_mem q hr)
    obtain ⟨s1, db1, disp, hrun, hcosts⟩ := ih hrest
      { (select_model contextsize model (init_page s)).1 with
          costs := ((select_model contextsize model (init_page s)).1).costs
            ++ [costFn q] }
      (build_qa_model db (select_model contextsize model (init_page s)).2).1
    refine ⟨s1, db1, disp, ?_, ?_⟩
    · unfold run_reruns main_ask_rerun
      rw [page_ask_ok contextsize qaCall model q (init_page s) db (ansFn q)
        (costFn q) hq (hcall _ q)]
      exact hrun
    · exact hcosts

theorem foldl_replace_last {α β : Type} (g : α → β) :
    ∀ (l : List α), l ≠ [] → ∀ (init : β),
      ∃ x, l.getLast? = some x ∧ l.foldl (fun _ a => g a) init = g x := by
  intro l
  induction l with
  | nil => exact fun h => absurd rfl h
  | cons a t ih =>
    intro _ init
    cases t with
    | nil => exact ⟨a, rfl, rfl⟩
    | cons b t2 =>
      obtain ⟨x, hx, hf⟩ := ih (by simp) (g a)
      refine ⟨x, ?_, hf⟩
      rw [List.getLast?_cons_cons]
      exact hx

/-- The claim as written, instantiated at K = 2: after two successfully
completed queries the accumulator contains exactly two entries and the
displayed total is the rounded sum of both per-query costs. -/
def claimC3_at_two (costs : List ℚ) : Prop :=
  costs.length = 2 ∧ display_total costs = round5 ((1 : ℚ) / 2 + 3 / 4)

/-- C3 counterexample: the claim is false on the code.  `main()` runs
`init_page()` — and with it the unconditional reset
`st.session_state.costs = []` — on every Streamlit rerun, i.e. before every
query is processed.  Two concrete completed queries at costs 1/2 and 3/4
leave the accumulator holding only `[3/4]`: one entry, not two, and the
displayed total is 3/4, not the rounded sum 5/4. -/
theorem C3_counterexample :
    outcome_costs (run_reruns (fun _ => 0)
        (fun _ q => Except.ok ({ query := q, result := "ans", source_documents := [] }, if q = "b" then (3 : ℚ) / 4 else (1 : ℚ) / 2))
        "GPT-4" ["a", "b"]
        { costs := [], model_name := "m", max_token := 0 }
        { collections := [] }) = [(3 : ℚ) / 4] ∧
    ¬ claimC3_at_two (outcome_costs (run_reruns (fun _ => 0)
        (fun _ q => Except.ok ({ query := q, result := "ans", source_documents := [] }, if q = "b" then (3 : ℚ) / 4 else (1 : ℚ) / 2))
        "GPT-4" ["a", "b"]
        { costs := [], model_name := "m", max_token := 0 }
        { collections := [] })) := by
  constructor
  · rfl
  · intro h
    exact absurd h.1 (by decide)

/-- C3 (amended): `init_page` resets the session cost accumulator to the
empty list, and `main()` initializes the page on every Streamlit rerun —
including the rerun that processes each query — so each completed query
appends its one float to a freshly reset list: after K ≥ 1 successfully
completed queries the accumulator contains exactly one entry, the last
query's cost, and the displayed total equals that single entry to the
configured 5 decimal places (within 1/200000 of it). -/
theorem C3_amended_last_cost_only (contextsize : String → ℤ) (qaCall : QaCall)
    (ansFn : String → Answer) (costFn : String → ℚ) (model : String)
    (queries : List String) (s : SessionState) (db : QdrantDB)
    (hne : ∀ q ∈ queries, q ≠ "") (hK : queries ≠ [])
    (hcall : ∀ qa q, qaCall qa q = Except.ok (ansFn q, costFn q)) :
    (init_page s).costs = [] ∧
    ∃ s1 db1 disp qlast,
      run_reruns contextsize qaCall model queries s db =
        PageOutcome.completed s1 db1 disp ∧
      queries.getLast? = some qlast ∧
      s1.costs = [costFn qlast] ∧
      s1.costs.length = 1 ∧
      display_total s1.costs = round5 (costFn qlast) ∧
      |display_total s1.costs - s1.costs.sum| ≤ 1 / 200000 := by
  refine ⟨rfl, ?_⟩
  obtain ⟨s1, db1, disp, hrun, hcosts⟩ := run_reruns_all_ok contextsize
    qaCall ansFn costFn hcall model queries hne s db
  obtain ⟨qlast, hlast, hfold⟩ :=
    foldl_replace_last (fun q => [costFn q]) queries hK s.costs
  have hc : s1.costs = [costFn qlast] := by rw [hcosts, hfold]
  refine ⟨s1, db1, disp, qlast, hrun, hlast, hc, by rw [hc]; rfl,
    by rw [hc]; simp [display_total], ?_⟩
  simpa [display_total] using round5_close s1.costs.sum

/-- C3 witness: three concrete successful queries (costs 1/2, 1/2, 3/4)
starting from a dirty session leave exactly one entry — the last cost — and
the display shows it rounded. -/
theorem C3_witness :
    (∀ q ∈ (["a", "b", "c"] : List String), q ≠ "") ∧
    (["a", "b", "c"] : List String) ≠ [] ∧
    ((init_page { costs := [7], model_name := "m", max_token := 0 }).costs = [] ∧
      ∃ s1 db1 disp qlast,
        run_reruns (fun _ => 0)
            (fun _ q => Except.ok ({ query := q, result := "ans", source_documents := [] }, if q = "c" then (3 : ℚ) / 4 else (1 : ℚ) / 2))
            "GPT-4" ["a", "b", "c"]
            { costs := [7], model_name := "m", max_token := 0 }
            { collections := [] } =
          PageOutcome.completed s1 db1 disp ∧
        (["a", "b", "c"] : List String).getLast? = some qlast ∧
        s1.costs = [if qlast = "c" then (3 : ℚ) / 4 else (1 : ℚ) / 2] ∧
        s1.costs.length = 1 ∧
        display_total s1.costs =
          round5 (if qlast = "c" then (3 : ℚ) / 4 else (1 : ℚ) / 2) ∧
        |display_total s1.costs - s1.costs.sum| ≤ 1 / 200000) :=
  ⟨by decide, by decide,
    C3_amended_last_cost_only (fun _ => 0)
      (fun _ q => Except.ok ({ query := q, result := "ans", source_documents := [] }, if q = "c" then (3 : ℚ) / 4 else (1 : ℚ) / 2))
      (fun q => { query := q, result := "ans", source_documents := [] })
      (fun q => if q = "c" then (3 : ℚ) / 4 else (1 : ℚ) / 2) "GPT-4"
      ["a", "b", "c"]
      { costs := [7], model_name := "m", max_token := 0 } { collections := [] }
      (by decide) (by decide) (fun _ _ => rfl)⟩

/-- C10 witness: a concrete failing call on the query "hi" propagates the
exception and leaves the concrete cost list `[7]` untouched. -/
theorem C10_witness :
    ("hi" : String) ≠ "" ∧
    (page_ask_my_pdf (fun _ => 0) (fun _ _ => Except.error { message := "boom" })
        "GPT-3.5" "hi" { costs := [7], model_name := "", max_token := 0 }
        { collections := [] } =
      PageOutcome.raised { message := "boom" }
        (select_model (fun _ => 0) "GPT-3.5"
          { costs := [7], model_name := "", max_token := 0 }).1
        (build_qa_model { collections := [] }
          (select_model (fun _ => 0) "GPT-3.5"
            { costs := [7], model_name := "", max_token := 0 }).2).1 ∧
      ((select_model (fun _ => 0) "GPT-3.5"
          { costs := [7], model_name := "", max_token := 0 }).1).costs =
        ({ costs := [7], model_name := "", max_token := 0 } : SessionState).costs) :=
  ⟨by decide,
    C10_failed_call_appends_nothing (fun _ => 0)
      (fun _ _ => Except.error { message := "boom" }) "GPT-3.5" "hi"
      { costs := [7], model_name := "", max_token := 0 } { collections := [] }
      { message := "boom" } (by decide) rfl⟩

end PdfFullLoader
